import Mathlib

/-!
Verification of the Lalamove delivery-quote app (`src/app.py`).

This file shallowly embeds the signing, request, coordinate-parsing,
geocoding and search-gating logic of `app.py` in Lean 4 and settles the
frozen claims about it.  Machine-level details are modelled as follows:

* bytes are `Nat` values `< 256`; 32-bit words are `Nat` values reduced
  with `% 2^32`;
* JSON values are the inductive `Json`; `json.dumps` is embedded for the
  three separator/`ensure_ascii` configurations the program uses;
* Python floats are modelled by exact rationals (`Rat`): every numeric
  literal the claims mention is evaluated exactly, IEEE rounding is not
  modelled;
* effects (network responses, `time.time()`, `uuid.uuid4()`) are passed
  in explicitly as arguments.
-/

/-! ### SHA-256 and HMAC-SHA256 (executable, over `Nat` bytes)

`app.py` signs with `hmac.new(secret, msg, hashlib.sha256).hexdigest()`.
The functions below implement FIPS 180-4 SHA-256 and RFC 2104 HMAC. -/

def w32 (n : Nat) : Nat := n % 4294967296

def rotr (n x : Nat) : Nat := w32 ((x >>> n) ||| (x <<< (32 - n)))

def bsig0 (x : Nat) : Nat := rotr 2 x ^^^ rotr 13 x ^^^ rotr 22 x

def bsig1 (x : Nat) : Nat := rotr 6 x ^^^ rotr 11 x ^^^ rotr 25 x

def ssig0 (x : Nat) : Nat := rotr 7 x ^^^ rotr 18 x ^^^ (x >>> 3)

def ssig1 (x : Nat) : Nat := rotr 17 x ^^^ rotr 19 x ^^^ (x >>> 10)

def chFn (x y z : Nat) : Nat := (x &&& y) ^^^ ((x ^^^ 4294967295) &&& z)

def majFn (x y z : Nat) : Nat := (x &&& y) ^^^ (x &&& z) ^^^ (y &&& z)

/-- The 64 SHA-256 round constants of FIPS 180-4 §4.2.2 (the first 32
bits of the fractional parts of the cube roots of the first 64 primes),
written in decimal. -/
def sha256K : List Nat :=
  [1116352408, 1899447441, 3049323471, 3921009573, 961987163, 1508970993,
   2453635748, 2870763221, 3624381080, 310598401, 607225278, 1426881987,
   1925078388, 2162078206, 2614888103, 3248222580, 3835390401, 4022224774,
   264347078, 604807628, 770255983, 1249150122, 1555081692, 1996064986,
   2554220882, 2821834349, 2952996808, 3210313671, 3336571891, 3584528711,
   113926993, 338241895, 666307205, 773529912, 1294757372, 1396182291,
   1695183700, 1986661051, 2177026350, 2456956037, 2730485921, 2820302411,
   3259730800, 3345764771, 3516065817, 3600352804, 4094571909, 275423344,
   430227734, 506948616, 659060556, 883997877, 958139571, 1322822218,
   1537002063, 1747873779, 1955562222, 2024104815, 2227730452, 2361852424,
   2428436474, 2756734187, 3204031479, 3329325298]

/-- The eight SHA-256 initial hash values of FIPS 180-4 §5.3.3, in
decimal. -/
def sha256H0 : List Nat :=
  [1779033703, 3144134277, 1013904242, 2773480762,
   1359893119, 2600822924, 528734635, 1541459225]

def bytesToWords : List Nat → List Nat
  | a :: b :: c :: d :: rest =>
      (w32 ((a <<< 24) ||| (b <<< 16) ||| (c <<< 8) ||| d)) :: bytesToWords rest
  | _ => []

def extendW (fuel : Nat) (ws : Array Nat) : Array Nat :=
  match fuel with
  | 0 => ws
  | f + 1 =>
    let n := ws.size
    let nw := w32 (ssig1 (ws.getD (n - 2) 0) + ws.getD (n - 7) 0 +
                   ssig0 (ws.getD (n - 15) 0) + ws.getD (n - 16) 0)
    extendW f (ws.push nw)

def roundFn (st : List Nat) (kw : Nat) : List Nat :=
  match st with
  | [a, b, c, d, e, f, g, h] =>
    let t1 := w32 (h + bsig1 e + chFn e f g + kw)
    let t2 := w32 (bsig0 a + majFn a b c)
    [w32 (t1 + t2), a, b, c, w32 (d + t1), e, f, g]
  | other => other

def sha256Compress (st : List Nat) (block : List Nat) : List Nat :=
  let ws := extendW 48 (bytesToWords block).toArray
  let kws := (List.range 64).map (fun i => w32 (sha256K.getD i 0 + ws.getD i 0))
  let fin := kws.foldl roundFn st
  (st.zip fin).map (fun p => w32 (p.1 + p.2))

def be64 (n : Nat) : List Nat :=
  [(n >>> 56) &&& 255, (n >>> 48) &&& 255, (n >>> 40) &&& 255, (n >>> 32) &&& 255,
   (n >>> 24) &&& 255, (n >>> 16) &&& 255, (n >>> 8) &&& 255, n &&& 255]

def be32 (n : Nat) : List Nat :=
  [(n >>> 24) &&& 255, (n >>> 16) &&& 255, (n >>> 8) &&& 255, n &&& 255]

def padMsg (msg : List Nat) : List Nat :=
  msg ++ [128] ++ List.replicate ((119 - msg.length % 64) % 64) 0 ++ be64 (8 * msg.length)

def foldBlocks : Nat → List Nat → List Nat → List Nat
  | 0, st, _ => st
  | n + 1, st, msg => foldBlocks n (sha256Compress st (msg.take 64)) (msg.drop 64)

def sha256 (msg : List Nat) : List Nat :=
  let p := padMsg msg
  ((foldBlocks (p.length / 64) sha256H0 p).map be32).flatten

def hexDigit (n : Nat) : Char := if n < 10 then Char.ofNat (48 + n) else Char.ofNat (87 + n)

/-- Lowercase hexadecimal rendering of a byte list, as `bytes.hex()` /
`hexdigest()` produce. -/
def bytesToHex (bs : List Nat) : String :=
  String.mk (bs.flatMap (fun b => [hexDigit (b / 16), hexDigit (b % 16)]))

def hmacSha256 (key msg : List Nat) : List Nat :=
  let k0 := if key.length > 64 then sha256 key else key
  let kp := k0 ++ List.replicate (64 - k0.length) 0
  sha256 ((kp.map (fun b => b ^^^ 92)) ++ sha256 ((kp.map (fun b => b ^^^ 54)) ++ msg))

/-- UTF-8 encoding of one character (what `str.encode("utf-8")` does per
code point). -/
def utf8Char (c : Char) : List Nat :=
  let n := c.toNat
  if n < 128 then [n]
  else if n < 2048 then [192 ||| (n >>> 6), 128 ||| (n &&& 63)]
  else if n < 65536 then [224 ||| (n >>> 12), 128 ||| ((n >>> 6) &&& 63), 128 ||| (n &&& 63)]
  else [240 ||| (n >>> 18), 128 ||| ((n >>> 12) &&& 63), 128 ||| ((n >>> 6) &&& 63),
        128 ||| (n &&& 63)]

def utf8Encode (s : String) : List Nat := s.toList.flatMap utf8Char

/-- `hmac.new(key.encode("utf-8"), msg.encode("utf-8"), hashlib.sha256).hexdigest()`. -/
def hmacSha256Hex (key msg : String) : String :=
  bytesToHex (hmacSha256 (utf8Encode key) (utf8Encode msg))

/-! ### JSON values and `json.dumps`

The request bodies the program builds are dictionaries of strings,
lists and nested dictionaries; `Json` covers all Python values
`json.dumps` would accept here.  Dictionaries keep insertion order, as
Python dicts do. -/

inductive Json where
  | null : Json
  | bool : Bool → Json
  | num : Int → Json
  | str : String → Json
  | arr : List Json → Json
  | obj : List (String × Json) → Json

/-- Python truthiness of a JSON-representable value (`if body:`):
`None`, `False`, `0`, `""`, `[]` and the empty dict are falsy. -/
def jsonTruthy : Json → Bool
  | Json.null => false
  | Json.bool b => b
  | Json.num n => n != 0
  | Json.str s => s != ""
  | Json.arr xs => !xs.isEmpty
  | Json.obj fs => !fs.isEmpty

/-- Truthiness of an optional body (`body` is `None` or a value). -/
def pyTruthyOpt : Option Json → Bool
  | none => false
  | some j => jsonTruthy j

def hex4 (n : Nat) : String :=
  String.mk [hexDigit (n / 4096 % 16), hexDigit (n / 256 % 16), hexDigit (n / 16 % 16),
             hexDigit (n % 16)]

/-- JSON string-character escaping as Python's `json.dumps` performs it:
`"`, `\`, the short control escapes, `\uXXXX` for other control
characters, and — when `ensure_ascii` — `\uXXXX` (with surrogate pairs)
for every character outside `0x20`–`0x7e`. -/
def jsonEscChar (ascii : Bool) (c : Char) : String :=
  if c = '"' then "\\\""
  else if c = '\\' then "\\\\"
  else if c = '\n' then "\\n"
  else if c = '\r' then "\\r"
  else if c = '\t' then "\\t"
  else if c.toNat = 8 then "\\b"
  else if c.toNat = 12 then "\\f"
  else if c.toNat < 32 then "\\u" ++ hex4 c.toNat
  else if ascii && c.toNat > 126 then
    if c.toNat < 65536 then "\\u" ++ hex4 c.toNat
    else "\\u" ++ hex4 (55296 + (c.toNat - 65536) / 1024) ++
         "\\u" ++ hex4 (56320 + (c.toNat - 65536) % 1024)
  else String.singleton c

def dumpJsonStr (ascii : Bool) (s : String) : String :=
  "\"" ++ String.join (s.toList.map (jsonEscChar ascii)) ++ "\""

mutual

/-- `json.dumps` with item separator `isep`, key separator `ksep` and
`ensure_ascii` flag; the program uses `(",", ":")` for signing and the
defaults `(", ", ": ")` elsewhere. -/
def dumpJson (isep ksep : String) (ascii : Bool) : Json → String
  | Json.null => "null"
  | Json.bool true => "true"
  | Json.bool false => "false"
  | Json.num n => toString n
  | Json.str s => dumpJsonStr ascii s
  | Json.arr xs => "[" ++ dumpJsonList isep ksep ascii xs ++ "]"
  | Json.obj fs => "\x7b" ++ dumpJsonFields isep ksep ascii fs ++ "\x7d"

def dumpJsonList (isep ksep : String) (ascii : Bool) : List Json → String
  | [] => ""
  | [x] => dumpJson isep ksep ascii x
  | x :: y :: rest =>
      dumpJson isep ksep ascii x ++ isep ++ dumpJsonList isep ksep ascii (y :: rest)

def dumpJsonFields (isep ksep : String) (ascii : Bool) : List (String × Json) → String
  | [] => ""
  | [(k, v)] => dumpJsonStr ascii k ++ ksep ++ dumpJson isep ksep ascii v
  | (k, v) :: f :: rest =>
      dumpJsonStr ascii k ++ ksep ++ dumpJson isep ksep ascii v ++ isep ++
      dumpJsonFields isep ksep ascii (f :: rest)

end

/-- `json.dumps(x, separators=(",", ":"))` — the compact form used in
`_build_signature`. -/
def dumpsCompact (j : Json) : String := dumpJson "," ":" true j

/-- `json.dumps(x)` with all defaults — used for the request data. -/
def dumpsDefault (j : Json) : String := dumpJson ", " ": " true j

/-- `json.dumps(x, ensure_ascii=False)` — used for the error payload of
`lalamove_request`. -/
def dumpsNoAscii (j : Json) : String := dumpJson ", " ": " false j

/-- Keys of a JSON object, in order (empty for non-objects). -/
def jsonKeys : Json → List String
  | Json.obj fs => fs.map Prod.fst
  | _ => []

/-! ### URL path extraction

`_build_signature` calls `urllib.parse.urlparse(url).path`.  The model
below reproduces `urlparse` path extraction for the absolute
`scheme://netloc/path` URLs this program constructs (fragment after
`#` and query after `?` are not part of the path; with no `://` the
remainder is all path). -/

def afterSchemeNetloc : List Char → Option (List Char)
  | [] => none
  | ':' :: '/' :: '/' :: rest => some rest
  | _ :: t => afterSchemeNetloc t

def urlparsePath (url : String) : String :=
  let cs := url.toList.takeWhile (fun c => c != '#' && c != '?')
  match afterSchemeNetloc cs with
  | some rest => String.mk (rest.dropWhile (fun c => c != '/'))
  | none => String.mk cs

/-- Python `str.upper()` (the methods used here are ASCII). -/
def pyUpper (s : String) : String := String.mk (s.toList.map Char.toUpper)

/-! ### Configuration constants of `app.py` -/

def LALAMOVE_COUNTRY : String := "TH"

def LALAMOVE_MARKET : String := "TH-BKK"

def LALAMOVE_BASE_URL : String := "https://rest.sandbox.lalamove.com"

/-! ### The signing scheme (`_build_signature`, `_headers`) -/

/-- Embedding of `app.py`'s `_build_signature(secret, method, url, body,
ts_ms)`: sign `ts \r\n METHOD \r\n path \r\n \r\n payload` where
`payload = json.dumps(body, separators=(",", ":")) if body else ""`. -/
def _build_signature (secret method url : String) (body : Option Json) (ts_ms : String) :
    String :=
  let path := urlparsePath url
  let payload :=
    match body with
    | some j => if jsonTruthy j then dumpsCompact j else ""
    | none => ""
  let to_sign := ts_ms ++ "\r\n" ++ pyUpper method ++ "\r\n" ++ path ++ "\r\n\r\n" ++ payload
  hmacSha256Hex secret to_sign

/-- The signature exactly as claim C1 words it: the payload is the
compact JSON serialization of the body, or the empty string only when
the body is absent. -/
def specSignatureC1 (secret method url : String) (body : Option Json) (ts_ms : String) :
    String :=
  hmacSha256Hex secret
    (ts_ms ++ "\r\n" ++ pyUpper method ++ "\r\n" ++ urlparsePath url ++ "\r\n\r\n" ++
      (match body with
       | some j => dumpsCompact j
       | none => ""))

/-- The signature as the amended claim words it: the payload is the
compact JSON serialization of the body when the body is present and
truthy, and the empty string when it is absent or falsy. -/
def specSignatureC1Amended (secret method url : String) (body : Option Json) (ts_ms : String) :
    String :=
  hmacSha256Hex secret
    (ts_ms ++ "\r\n" ++ pyUpper method ++ "\r\n" ++ urlparsePath url ++ "\r\n\r\n" ++
      (match body with
       | some j => if jsonTruthy j then dumpsCompact j else ""
       | none => ""))

/-- Embedding of `_headers(method, url, body)`.  The wall-clock
timestamp `ts` and the random request id `req_id` are effects of
`_now_ms()` / `uuid.uuid4()` and are passed in explicitly. -/
def _headers (api_key api_secret ts req_id method url : String) (body : Option Json) :
    List (String × String) :=
  [("Content-Type", "application/json; charset=UTF-8"),
   ("Accept", "application/json"),
   ("X-Request-ID", req_id),
   ("X-LLM-Country", LALAMOVE_COUNTRY),
   ("X-LLM-Market", LALAMOVE_MARKET),
   ("Authorization",
     "hmac " ++ api_key ++ ":" ++ ts ++ ":" ++ _build_signature api_secret method url body ts)]

/-! ### `lalamove_request`: the issued request and the response handling -/

/-- The single HTTP request `lalamove_request(method, path, body)` hands
to `requests.request`: URL, headers, and serialized data
(`data=json.dumps(body) if body else None`). -/
structure IssuedRequest where
  method : String
  url : String
  headers : List (String × String)
  jsonBody : Option Json
  dataSent : Option String

def lalamove_request_issued (api_key api_secret ts req_id method path : String)
    (body : Option Json) : IssuedRequest :=
  let url := LALAMOVE_BASE_URL ++ path
  { method := method
    url := url
    headers := _headers api_key api_secret ts req_id method url body
    jsonBody := body
    dataSent :=
      match body with
      | some j => if jsonTruthy j then some (dumpsDefault j) else none
      | none => none }

/-- The HTTP response as `lalamove_request` observes it: the status code
and, when `resp.json()` succeeds, the parsed JSON body (`none` models a
body on which `resp.json()` raises). -/
structure HttpResponse where
  status : Nat
  jsonBody : Option Json

/-- How the tail of `lalamove_request` can end: a normal `return`, the
`RuntimeError` with its JSON payload string, or the
`requests.HTTPError` from `raise_for_status()`. -/
inductive PyOutcome where
  | ret : Option Json → PyOutcome
  | runtimeError : String → PyOutcome
  | httpError : Nat → PyOutcome

/-- `requests.Response.ok`: true iff `raise_for_status()` would not
raise, i.e. iff the status code is not in 400–599 (statuses below 400
and at or above 600 are both "ok"). -/
def respOk (status : Nat) : Bool := decide ¬(400 ≤ status ∧ status < 600)

/-- Embedding of the response handling of `lalamove_request`:
`data = resp.json()` (on failure `resp.raise_for_status()` — which
raises only for 400–599 — then `return None`); then
`if not resp.ok: raise RuntimeError(json.dumps({"status": ..,
"error": data}, ensure_ascii=False))`; else `return data`. -/
def lalamove_request_result : HttpResponse → PyOutcome
  | ⟨status, none⟩ =>
      if 400 ≤ status ∧ status < 600 then PyOutcome.httpError status
      else PyOutcome.ret none
  | ⟨status, some d⟩ =>
      if respOk status then PyOutcome.ret (some d)
      else
        PyOutcome.runtimeError
          (dumpsNoAscii (Json.obj [("status", Json.num status), ("error", d)]))

/-- Embedding of `lalamove_get_quotation(stops, service_type)`: the
request it issues through `lalamove_request("POST", "/v3/quotations",
payload)` with `payload = {"serviceType": service_type, "stops": stops}`. -/
def lalamove_get_quotation (api_key api_secret ts req_id : String) (stops : Json)
    (service_type : String) : IssuedRequest :=
  let payload := Json.obj [("serviceType", Json.str service_type), ("stops", stops)]
  lalamove_request_issued api_key api_secret ts req_id "POST" "/v3/quotations" (some payload)

/-! ### `parse_coords_from_text`

`app.py` runs `re.search(r"(-?\d+\.\d+)\s*,\s*(-?\d+\.\d+)", text)` and
converts the two groups with `float`.  For this pattern the regex
engine's leftmost-first backtracking search coincides with maximal-munch
matching tried at each start position in turn (shortening a greedy
`\d+` or `\s*` can never help, since the following required character is
never a digit / whitespace), which is what the functions below
implement.  `float` on a matched group is modelled exactly, as a
rational. -/

/-- One number `-?\d+\.\d+` matched at the head: the matched group and
the rest of the input. -/
def matchNumCore (cs : List Char) : Option (List Char × List Char) :=
  if (cs.takeWhile Char.isDigit).isEmpty then none
  else
    match cs.dropWhile Char.isDigit with
    | '.' :: r2 =>
      if (r2.takeWhile Char.isDigit).isEmpty then none
      else some (cs.takeWhile Char.isDigit ++ '.' :: r2.takeWhile Char.isDigit,
                 r2.dropWhile Char.isDigit)
    | _ => none

def matchNumAt (cs : List Char) : Option (List Char × List Char) :=
  match cs with
  | '-' :: t => (matchNumCore t).map (fun p => ('-' :: p.1, p.2))
  | _ => matchNumCore cs

/-- The whole pattern matched at the head: the two number groups. -/
def matchPairAt (cs : List Char) : Option (List Char × List Char) :=
  match matchNumAt cs with
  | none => none
  | some (g1, r1) =>
    match r1.dropWhile Char.isWhitespace with
    | ',' :: r3 =>
      match matchNumAt (r3.dropWhile Char.isWhitespace) with
      | none => none
      | some (g2, _) => some (g1, g2)
    | _ => none

/-- `re.search`: the match at the leftmost start position where the
pattern matches. -/
def searchPair : List Char → Option (List Char × List Char)
  | [] => matchPairAt []
  | c :: t =>
    match matchPairAt (c :: t) with
    | some p => some p
    | none => searchPair t

def digitsVal (ds : List Char) : Nat := ds.foldl (fun a c => a * 10 + (c.toNat - 48)) 0

/-- The digits after the decimal point of a matched number. -/
def fracDigits (t : List Char) : List Char :=
  match t.dropWhile Char.isDigit with
  | '.' :: f => f
  | _ => []

def decValPos (t : List Char) : Rat :=
  mkRat (digitsVal (t.takeWhile Char.isDigit) * 10 ^ (fracDigits t).length +
         digitsVal (fracDigits t))
    (10 ^ (fracDigits t).length)

/-- `float` applied to a matched group `-?\d+\.\d+`: its exact decimal
value (IEEE rounding is not modelled; every value the claims mention is
compared as an exact decimal). -/
def decToRat : List Char → Rat
  | '-' :: t => -(decValPos t)
  | t => decValPos t

/-- Embedding of `parse_coords_from_text(text)`; the argument is
`none` for Python `None`, and `if not text` catches `None` and `""`. -/
def parse_coords_from_text (text : Option String) : Option Rat × Option Rat :=
  match text with
  | none => (none, none)
  | some s =>
    if s = "" then (none, none)
    else
      match searchPair s.toList with
      | some (g1, g2) => (some (decToRat g1), some (decToRat g2))
      | none => (none, none)

/-- Substring containment of character lists (used to state claims about
"texts containing" a fragment). -/
def listContains (needle : List Char) : List Char → Bool
  | [] => needle.isEmpty
  | c :: t => needle.isPrefixOf (c :: t) || listContains needle t

/-! ### `geocode_address_nominatim`

The whole body of the function runs inside `try: ... except Exception
as e: return {"success": False, "error": str(e)}`.  The network
interaction is passed in as a `GeoNet` value: either `requests.get`
raised, or a response with a status code arrived whose body either
fails `response.json()` or parses as the Nominatim candidate array. -/

/-- One element of the Nominatim response array; `name` already carries
the `item.get("name", "")` default. -/
structure GeoItem where
  lat : String
  lon : String
  display_name : String
  name : String

inductive GeoBody where
  | invalid : String → GeoBody
  | items : List GeoItem → GeoBody

inductive GeoNet where
  | netExc : String → GeoNet
  | resp : Nat → GeoBody → GeoNet

/-- One entry of the returned `results` list. -/
structure GeoResult where
  lat : Rat
  lng : Rat
  address : String
  name : String

/-- The two dictionary shapes `geocode_address_nominatim` returns:
`{"success": True, "results": ...}` or `{"success": False, "error": ...}`. -/
inductive GeoReturn where
  | ok : List GeoResult → GeoReturn
  | err : String → GeoReturn

/-- Python `float()` on a plain decimal string (no exponent forms);
`none` models the `ValueError` it raises on malformed input. -/
def pyFloat? (s : String) : Option Rat :=
  let cs := match s.toList with
            | '-' :: t => t
            | '+' :: t => t
            | l => l
  let neg : Bool := match s.toList with | '-' :: _ => true | _ => false
  let ip := cs.takeWhile Char.isDigit
  let r1 := cs.dropWhile Char.isDigit
  match r1 with
  | [] =>
    if ip.isEmpty then none
    else some (if neg then -(mkRat (digitsVal ip) 1) else mkRat (digitsVal ip) 1)
  | '.' :: f =>
    if f.dropWhile Char.isDigit |>.isEmpty then
      if ip.isEmpty && (f.takeWhile Char.isDigit).isEmpty then none
      else
        some (if neg then -(decValPos cs) else decValPos cs)
    else none
  | _ => none

/-- Message of the `requests.HTTPError` that `raise_for_status()`
raises (modelled up to its text; only the status code matters to any
claim). -/
def httpErrorMsg (status : Nat) : String := toString status ++ " Error for url"

/-- The result-building loop: `float(item["lat"])` / `float(item["lon"])`
for each candidate; an `error` result models the `ValueError` a
malformed number raises (caught by the enclosing `except`). -/
def buildResults : List GeoItem → Except String (List GeoResult)
  | [] => Except.ok []
  | it :: rest =>
    match pyFloat? it.lat, pyFloat? it.lon, buildResults rest with
    | some la, some lo, Except.ok rs =>
        Except.ok (⟨la, lo, it.display_name, it.name⟩ :: rs)
    | none, _, _ => Except.error ("could not convert string to float: " ++ it.lat)
    | some _, none, _ => Except.error ("could not convert string to float: " ++ it.lon)
    | some _, some _, Except.error e => Except.error e

/-- Embedding of `geocode_address_nominatim`: `requests.get` (may
raise), `raise_for_status()` (raises for 400–599), `response.json()`
(may raise), then the candidate loop; every raise is caught by the
enclosing `except` and becomes `{"success": False, "error": str(e)}`,
and an empty candidate array yields the Thai "address not found"
error. -/
def geocode_address_nominatim (net : GeoNet) : GeoReturn :=
  match net with
  | GeoNet.netExc msg => GeoReturn.err msg
  | GeoNet.resp status body =>
    if 400 ≤ status ∧ status < 600 then GeoReturn.err (httpErrorMsg status)
    else
      match body with
      | GeoBody.invalid msg => GeoReturn.err msg
      | GeoBody.items [] => GeoReturn.err "ไม่พบที่อยู่"
      | GeoBody.items (it :: rest) =>
        match buildResults (it :: rest) with
        | Except.ok rs => GeoReturn.ok rs
        | Except.error e => GeoReturn.err e

/-! ### The search gate of the address-search form

Section 1 of the app only reaches the geocoding call behind
`if search_address and len(search_address) > 3:`. -/

/-- The gate `search_address and len(search_address) > 3`. -/
def searchGate (q : String) : Bool := q != "" && decide (q.length > 3)

/-- The address-search step: the geocoding lookup runs only when the
gate passes.  `env` maps the query to the ambient network's behaviour;
`none` means `geocode_address_nominatim` was never invoked. -/
def searchStep (env : String → GeoNet) (q : String) : Option GeoReturn :=
  if searchGate q then some (geocode_address_nominatim (env q)) else none

/-- A concrete network environment, used to instantiate theorems about
`searchStep`. -/
def demoEnv (q : String) : GeoNet := GeoNet.netExc q

/-! ### Helper lemmas: a regex match always contains a decimal point -/

theorem matchNumCore_has_dot {cs : List Char} {p : List Char × List Char}
    (h : matchNumCore cs = some p) : '.' ∈ cs := by
  unfold matchNumCore at h
  split at h
  · exact absurd h (by simp)
  · split at h
    · rename_i r2 heq
      exact (List.dropWhile_sublist Char.isDigit).mem
        (by rw [heq]; exact List.mem_cons_self _ _)
    · exact absurd h (by simp)

theorem matchNumAt_has_dot {cs : List Char} {p : List Char × List Char}
    (h : matchNumAt cs = some p) : '.' ∈ cs := by
  unfold matchNumAt at h
  split at h
  · rename_i t
    cases hm : matchNumCore t with
    | none => rw [hm] at h; simp at h
    | some q => exact List.mem_cons_of_mem _ (matchNumCore_has_dot hm)
  · exact matchNumCore_has_dot h

theorem matchPairAt_has_dot {cs : List Char} {p : List Char × List Char}
    (h : matchPairAt cs = some p) : '.' ∈ cs := by
  unfold matchPairAt at h
  cases hm : matchNumAt cs with
  | none => rw [hm] at h; simp at h
  | some q => exact matchNumAt_has_dot hm

theorem searchPair_has_dot {cs : List Char} {p : List Char × List Char}
    (h : searchPair cs = some p) : '.' ∈ cs := by
  induction cs with
  | nil =>
    have hnil : searchPair [] = none := rfl
    rw [hnil] at h; exact Option.noConfusion h
  | cons c t ih =>
    simp only [searchPair] at h
    cases hm : matchPairAt (c :: t) with
    | some q => exact matchPairAt_has_dot hm
    | none =>
      rw [hm] at h
      exact List.mem_cons_of_mem _ (ih h)

/-! ### The claims -/

/-- C2 (counterexample): `lalamove_request` can return normally on a
non-2xx status — a 300 response with a JSON body is returned as data,
because the code tests `resp.ok` (status not in 400–599), not "2xx". -/
theorem C2_counterexample :
    lalamove_request_result ⟨300, some Json.null⟩ = PyOutcome.ret (some Json.null)
      ∧ ¬(200 ≤ 300 ∧ 300 < 300) :=
  ⟨rfl, by decide⟩

/-- C2 (amended): for every response whose body parses as JSON, a status
in 400–599 — where `resp.ok` is false — raises the structured
`RuntimeError` carrying the numeric status and the body, and any other
status (below 400 or at or above 600) returns the parsed body; when the
body does not parse, a 400–599 status raises `HTTPError` and any other
status returns `None`. -/
theorem C2_request_result (s : Nat) (d : Json) :
    (400 ≤ s → s < 600 → lalamove_request_result ⟨s, some d⟩ =
        PyOutcome.runtimeError (dumpsNoAscii (Json.obj [("status", Json.num s), ("error", d)])))
  ∧ (¬(400 ≤ s ∧ s < 600) → lalamove_request_result ⟨s, some d⟩ = PyOutcome.ret (some d))
  ∧ (400 ≤ s → s < 600 → lalamove_request_result ⟨s, none⟩ = PyOutcome.httpError s)
  ∧ (¬(400 ≤ s ∧ s < 600) → lalamove_request_result ⟨s, none⟩ = PyOutcome.ret none) := by
  refine ⟨fun h h2 => ?_, fun h => ?_, fun h h2 => ?_, fun h => ?_⟩
  · simp only [lalamove_request_result]
    rw [if_neg (by simp only [respOk, decide_eq_true_eq]; exact fun hc => hc ⟨h, h2⟩)]
  · simp only [lalamove_request_result]
    rw [if_pos (by simp only [respOk, decide_eq_true_eq]; exact h)]
  · simp only [lalamove_request_result]
    rw [if_pos ⟨h, h2⟩]
  · simp only [lalamove_request_result]
    rw [if_neg h]

/-- C2 witness: the amended behaviour at concrete statuses 422, 200,
600, 500 and 201. -/
theorem C2_request_result_witness :
    lalamove_request_result ⟨422, some Json.null⟩ =
        PyOutcome.runtimeError
          (dumpsNoAscii (Json.obj [("status", Json.num 422), ("error", Json.null)]))
      ∧ lalamove_request_result ⟨200, some Json.null⟩ = PyOutcome.ret (some Json.null)
      ∧ lalamove_request_result ⟨600, some Json.null⟩ = PyOutcome.ret (some Json.null)
      ∧ lalamove_request_result ⟨500, none⟩ = PyOutcome.httpError 500
      ∧ lalamove_request_result ⟨201, none⟩ = PyOutcome.ret none :=
  ⟨(C2_request_result 422 Json.null).1 (by decide) (by decide),
   (C2_request_result 200 Json.null).2.1 (by decide),
   (C2_request_result 600 Json.null).2.1 (by decide),
   (C2_request_result 500 Json.null).2.2.1 (by decide) (by decide),
   (C2_request_result 201 Json.null).2.2.2 (by decide)⟩

/-- C3 (counterexample): the recognizer performs no range validation —
the out-of-range pair `999.5,999.5` (latitude and longitude both
999.5 > 90) is accepted, not rejected. -/
theorem C3_counterexample :
    parse_coords_from_text (some "999.5,999.5")
        = (some (mkRat 1999 2), some (mkRat 1999 2))
      ∧ ¬(mkRat 1999 2 ≤ mkRat 90 1) := by decide

/-- C3 (amended): the recognizer maps `"13.75,100.50"` to the pair
(13.75, 100.50); it performs no range validation and returns any
matched decimal pair, in range or not. -/
theorem C3_coords_recognizer :
    parse_coords_from_text (some "13.75,100.50")
        = (some (mkRat 55 4), some (mkRat 201 2))
      ∧ parse_coords_from_text (some "999.5,999.5")
        = (some (mkRat 1999 2), some (mkRat 1999 2)) := by decide

/-- C4 (counterexample): the quotation body has exactly the keys
`serviceType` and `stops` — no `language` field is sent. -/
theorem C4_counterexample :
    (lalamove_get_quotation "k" "s" "1" "r" (Json.arr []) "MOTORCYCLE").jsonBody
        = some (Json.obj [("serviceType", Json.str "MOTORCYCLE"), ("stops", Json.arr [])])
      ∧ "language" ∉
          jsonKeys (Json.obj [("serviceType", Json.str "MOTORCYCLE"), ("stops", Json.arr [])]) :=
  ⟨rfl, by decide⟩

/-- C4 (amended): for every service type and stop list,
`lalamove_get_quotation` issues a single POST to the fixed path
`/v3/quotations` whose JSON body is exactly
`{"serviceType": .., "stops": ..}` (no `language` field), with the
headers — including the canonical-scheme `Authorization` signature —
built by `_headers`. -/
theorem C4_quotation_request (api_key api_secret ts req_id service : String) (stops : Json) :
    (lalamove_get_quotation api_key api_secret ts req_id stops service).method = "POST"
  ∧ (lalamove_get_quotation api_key api_secret ts req_id stops service).url
      = LALAMOVE_BASE_URL ++ "/v3/quotations"
  ∧ (lalamove_get_quotation api_key api_secret ts req_id stops service).jsonBody
      = some (Json.obj [("serviceType", Json.str service), ("stops", stops)])
  ∧ (lalamove_get_quotation api_key api_secret ts req_id stops service).headers
      = [("Content-Type", "application/json; charset=UTF-8"),
         ("Accept", "application/json"),
         ("X-Request-ID", req_id),
         ("X-LLM-Country", LALAMOVE_COUNTRY),
         ("X-LLM-Market", LALAMOVE_MARKET),
         ("Authorization",
           "hmac " ++ api_key ++ ":" ++ ts ++ ":" ++
             _build_signature api_secret "POST" (LALAMOVE_BASE_URL ++ "/v3/quotations")
               (some (Json.obj [("serviceType", Json.str service), ("stops", stops)])) ts)] :=
  ⟨rfl, rfl, rfl, rfl⟩

/-- C6: a query that is empty or shorter than 3 characters fails the
gate `search_address and len(search_address) > 3`, so the search step
yields no result and `geocode_address_nominatim` is never invoked,
whatever the network would have answered. -/
theorem C6_short_query_skips_geocoding (env : String → GeoNet) (q : String)
    (h : q = "" ∨ q.length < 3) : searchStep env q = none := by
  have hg : searchGate q = false := by
    rcases h with h | h
    · subst h; rfl
    · unfold searchGate
      have h3 : decide (q.length > 3) = false := by
        simp only [decide_eq_false_iff_not]
        omega
      rw [h3, Bool.and_false]
  unfold searchStep
  simp [hg]

/-- C6 witness: the two-character query `"ab"` reaches no geocoding. -/
theorem C6_short_query_skips_geocoding_witness : searchStep demoEnv "ab" = none :=
  C6_short_query_skips_geocoding demoEnv "ab" (Or.inr (by decide))

/-- C7 (counterexample): an input that contains the fragment
`@13.7,100.5` need not resolve to (13.7, 100.5): `re.search` returns
the leftmost match, so an earlier decimal pair wins. -/
theorem C7_counterexample :
    listContains ("@13.7,100.5".toList) ("1.5,2.5 @13.7,100.5".toList) = true
      ∧ parse_coords_from_text (some "1.5,2.5 @13.7,100.5")
          ≠ (some (mkRat 137 10), some (mkRat 201 2)) := by decide

/-- C7 (amended): an input whose leftmost decimal coordinate pair is the
one in `@13.7,100.5` — the bare fragment or a map link carrying it —
resolves to (13.7, 100.5); a decimal pair occurring earlier in the text
takes precedence. -/
theorem C7_map_link_coords :
    parse_coords_from_text (some "@13.7,100.5")
        = (some (mkRat 137 10), some (mkRat 201 2))
      ∧ parse_coords_from_text (some "https://www.google.com/maps/@13.7,100.5,15z")
        = (some (mkRat 137 10), some (mkRat 201 2))
      ∧ parse_coords_from_text (some "1.5,2.5 @13.7,100.5")
        = (some (mkRat 3 2), some (mkRat 5 2)) := by decide

/-- C8: `geocode_address_nominatim` never propagates an exception — it
always returns a success or a failure dictionary; a network exception,
a 400–599 status, and a JSON parse failure each yield
`success = False` with an error message, and an OK response with an
empty candidate array yields the "not found" error rather than a
result list. -/
theorem C8_geocode_never_raises :
    (∀ net, (∃ rs, geocode_address_nominatim net = GeoReturn.ok rs)
        ∨ (∃ e, geocode_address_nominatim net = GeoReturn.err e))
  ∧ (∀ msg, geocode_address_nominatim (GeoNet.netExc msg) = GeoReturn.err msg)
  ∧ (∀ s b, 400 ≤ s → s < 600 →
        geocode_address_nominatim (GeoNet.resp s b) = GeoReturn.err (httpErrorMsg s))
  ∧ (∀ s msg, ¬(400 ≤ s ∧ s < 600) →
        geocode_address_nominatim (GeoNet.resp s (GeoBody.invalid msg)) = GeoReturn.err msg)
  ∧ (∀ s, ¬(400 ≤ s ∧ s < 600) →
        geocode_address_nominatim (GeoNet.resp s (GeoBody.items []))
          = GeoReturn.err "ไม่พบที่อยู่") := by
  refine ⟨fun net => ?_, fun msg => rfl, fun s b h1 h2 => ?_, fun s msg h => ?_, fun s h => ?_⟩
  · cases hres : geocode_address_nominatim net with
    | ok rs => exact Or.inl ⟨rs, rfl⟩
    | err e => exact Or.inr ⟨e, rfl⟩
  · simp only [geocode_address_nominatim]
    rw [if_pos ⟨h1, h2⟩]
  · simp only [geocode_address_nominatim]
    rw [if_neg h]
  · simp only [geocode_address_nominatim]
    rw [if_neg h]

/-- C8 witness: the failure shapes at concrete inputs — a 404, a 200
with an unparseable body, and a 200 with an empty candidate array. -/
theorem C8_geocode_never_raises_witness :
    geocode_address_nominatim (GeoNet.resp 404 (GeoBody.items []))
        = GeoReturn.err (httpErrorMsg 404)
      ∧ geocode_address_nominatim (GeoNet.resp 200 (GeoBody.invalid "Expecting value"))
        = GeoReturn.err "Expecting value"
      ∧ geocode_address_nominatim (GeoNet.resp 200 (GeoBody.items []))
        = GeoReturn.err "ไม่พบที่อยู่" :=
  ⟨C8_geocode_never_raises.2.2.1 404 (GeoBody.items []) (by decide) (by decide),
   C8_geocode_never_raises.2.2.2.1 200 "Expecting value" (by decide),
   C8_geocode_never_raises.2.2.2.2 200 (by decide)⟩

/-- C9: `parse_coords_from_text` is total and yields `(None, None)` for
`None` and the empty string, and for every text without a decimal
point — in particular `"13, 100"` — since each regex group requires
`\d+\.\d+`. -/
theorem C9_parse_coords_total :
    parse_coords_from_text none = (none, none)
  ∧ parse_coords_from_text (some "") = (none, none)
  ∧ (∀ s : String, '.' ∉ s.toList → parse_coords_from_text (some s) = (none, none))
  ∧ parse_coords_from_text (some "13, 100") = (none, none)
  ∧ parse_coords_from_text (some "13.5, 100") = (none, none) := by
  refine ⟨rfl, rfl, fun s hdot => ?_, by decide, by decide⟩
  simp only [parse_coords_from_text]
  by_cases hs : s = ""
  · rw [if_pos hs]
  · rw [if_neg hs]
    cases hsp : searchPair s.toList with
    | some p => exact absurd (searchPair_has_dot hsp) hdot
    | none => rfl

/-- C9 witness: the no-decimal-point case applied to `"13, 100"`. -/
theorem C9_parse_coords_total_witness :
    parse_coords_from_text (some "13, 100") = (none, none) :=
  C9_parse_coords_total.2.2.1 "13, 100" (by decide)

/-- C10: a 2xx response whose body is not valid JSON makes
`lalamove_request` return `None`: `resp.json()` raises,
`raise_for_status()` does nothing for a 2xx status, and the function
returns `None`. -/
theorem C10_malformed_2xx_returns_none (s : Nat) (h1 : 200 ≤ s) (h2 : s < 300) :
    lalamove_request_result ⟨s, none⟩ = PyOutcome.ret none := by
  simp only [lalamove_request_result]
  rw [if_neg (by omega)]

/-- C10 witness: a 204 with an unparseable body returns `None`. -/
theorem C10_malformed_2xx_returns_none_witness :
    lalamove_request_result ⟨204, none⟩ = PyOutcome.ret none :=
  C10_malformed_2xx_returns_none 204 (by decide) (by decide)

set_option maxRecDepth 10000 in
/-- C1 (counterexample): the payload is not always the compact JSON of a
present body — `payload = json.dumps(body, ...) if body else ""` tests
Python truthiness, so at secret `"k"`, method `"p"`, url `"u"`,
timestamp `"1"` and the present-but-falsy body `{}` the code signs the
empty payload while the claim's formula signs `"{}"`, and the two
signatures differ. -/
theorem C1_counterexample :
    _build_signature "k" "p" "u" (some (Json.obj [])) "1"
      ≠ specSignatureC1 "k" "p" "u" (some (Json.obj [])) "1" := by decide

/-- C1 (amended): for every secret, method, URL, body and timestamp,
`_build_signature` is the lowercase-hex HMAC-SHA256, keyed with the
UTF-8 secret, of `ts CRLF METHOD CRLF path CRLF CRLF payload`, where
the payload is the compact JSON serialization of the body when the body
is present and truthy, and the empty string when it is absent or falsy
(e.g. the empty object). -/
theorem C1_signature_formula (secret method url : String) (body : Option Json) (ts : String) :
    _build_signature secret method url body ts
      = specSignatureC1Amended secret method url body ts := by
  cases body <;> rfl

set_option maxRecDepth 10000 in
/-- C5: the signature is a pure function of (secret, method, url, body,
timestamp) — two computations on identical inputs agree — and at the
fixed secret `"k"`, method `"P"`, url `"u"` and timestamp `"1"` there
are two distinct bodies (absent, and `"a"`) whose signatures differ. -/
theorem C5_signature_deterministic_and_body_sensitive :
    (∀ (secret method url ts : String) (body : Option Json),
        _build_signature secret method url body ts
          = _build_signature secret method url body ts)
  ∧ (∃ b1 b2 : Option Json, b1 ≠ b2
        ∧ _build_signature "k" "P" "u" b1 "1" ≠ _build_signature "k" "P" "u" b2 "1") :=
  ⟨fun _ _ _ _ _ => rfl,
   ⟨none, some (Json.str "a"), fun h => Option.noConfusion h, by decide⟩⟩
